import Mathlib

/-!
Verification of smartSam2Fastq.py: a single-pass deduplication-and-pairing
engine that turns a name-sorted SAM stream into two mate FASTQ streams.

The Python source is embedded shallowly below.  Python runtime failures
(IndexError from missing fields, ValueError from int() on a non-numeric
flags field, the RuntimeError raised for both-mate-bits and for conflicting
alignments, the NameError raised by the misspelled literal in Read.__eq__,
and the AttributeError raised when main calls has_key on a header string)
are modelled as an explicit error type threaded through Except.  The Python
dict reads_by_end, keyed by the end number 0/1/2, is modelled as an
association list preserving insertion order; the lazily evaluated generator
parse_and_deduplicate_sam is modelled as the list of items it yields before
terminating, together with the error (if any) it raises at the end.
-/

/-- The Python exceptions the program can raise, by site. -/
inductive PyErr where
  /-- IndexError: a SAM line with too few tab-separated fields. -/
  | indexError : PyErr
  /-- ValueError: int() applied to a flags field that is not an integer. -/
  | valueError : PyErr
  /-- RuntimeError("Alignment flagged as both READ1 and READ2"). -/
  | bothMateBits : PyErr
  /-- NameError: Read.__eq__ returns the misspelled literal Fasle when the
  quality strings differ, which is an undefined name in Python. -/
  | nameError : PyErr
  /-- RuntimeError("Non-suspect alignments don't agree on end .. of template ..")
  carrying the end number and the template name. -/
  | conflict (e : Nat) (template : String) : PyErr
  /-- AttributeError: main calls reads_by_end.has_key(1) on a header string. -/
  | attributeError : PyErr
deriving DecidableEq

instance {e a : Type} [DecidableEq e] [DecidableEq a] : DecidableEq (Except e a) := by
  intro x y
  cases x <;> cases y
  case error.error u v =>
    exact if h : u = v then .isTrue (by rw [h]) else
      .isFalse (by intro hc; injection hc; contradiction)
  case error.ok u v => exact .isFalse (by intro hc; exact Except.noConfusion hc)
  case ok.error u v => exact .isFalse (by intro hc; exact Except.noConfusion hc)
  case ok.ok u v =>
    exact if h : u = v then .isTrue (by rw [h]) else
      .isFalse (by intro hc; injection hc; contradiction)

/-- Python str.split("\t") over the character list: splitting on a single
tab character, where an empty string yields one empty field. -/
def splitTabChars : List Char → List (List Char)
  | [] => [[]]
  | c :: rest =>
    if c = '\t' then [] :: splitTabChars rest
    else
      match splitTabChars rest with
      | [] => [[c]]
      | g :: gs => (c :: g) :: gs

/-- Python sam_line.split("\t"). -/
def splitTab (s : String) : List String :=
  (splitTabChars s.data).map (fun cs => String.mk cs)

/-- Python line.startswith("@"). -/
def startsHeader (s : String) : Bool :=
  match s.data with
  | [] => false
  | c :: _ => c = '@'

/-- Python contig.endswith("_alt"). -/
def endsWithAlt (s : String) : Bool :=
  decide (s.data.reverse.take 4 = ['t', 'l', 'a', '_'])

/-- The digits of a decimal literal, or none when the list is empty or a
character is not a digit. -/
def digitsToNat (ds : List Char) : Option Nat :=
  if ds.isEmpty then none
  else
    ds.foldl
      (fun acc c =>
        match acc with
        | none => none
        | some n => if c.isDigit then some (n * 10 + (c.toNat - '0'.toNat)) else none)
      (some 0)

/-- Python int(s) on a whitespace-free field: an optional sign followed by
decimal digits; none models the ValueError int() raises otherwise. -/
def parsePyInt (s : String) : Option Int :=
  match s.data with
  | '-' :: ds => (digitsToNat ds).map (fun n => -(n : Int))
  | '+' :: ds => (digitsToNat ds).map (fun n => (n : Int))
  | ds => (digitsToNat ds).map (fun n => (n : Int))

/-- Bit i of a Python integer under the two's-complement semantics of
Python's bitwise and: bit i of a negative number is the negation of bit i
of its complement.  flags & 16, flags & 64, flags & 128 in the source are
the bits 4, 6 and 7. -/
def intTestBit : Int → Nat → Bool
  | Int.ofNat m, i => m.testBit i
  | Int.negSucc m, i => !(m.testBit i)

/-- Python s[: : -1] (string reversal), used on the quality string. -/
def strReverse (s : String) : String :=
  String.mk s.data.reverse

/-- RC_TABLE = string.maketrans("ACGT", "TGCA"): the per-character
complement, leaving every other character unchanged. -/
def complementChar (c : Char) : Char :=
  if c = 'A' then 'T'
  else if c = 'C' then 'G'
  else if c = 'G' then 'C'
  else if c = 'T' then 'A'
  else c

/-- reverse_complement(dna) = dna.translate(RC_TABLE)[: : -1]. -/
def reverse_complement (dna : String) : String :=
  String.mk ((dna.data.map complementChar).reverse)

/-- A Read as reconstructed from an alignment line (class Read). -/
structure Read where
  /-- self.line: the raw SAM line. -/
  line : String
  /-- self.template = parts[0]. -/
  template : String
  /-- self.flags = int(parts[1]). -/
  flags : Int
  /-- self.end: 1 for READ1, 2 for READ2, 0 for unpaired. -/
  end_ : Nat
  /-- self.sequence: parts[9], reverse-complemented when the reverse bit is set. -/
  sequence : String
  /-- self.qualities: parts[10], reversed when the reverse bit is set. -/
  qualities : String
  /-- self.is_reverse. -/
  is_reverse : Bool
  /-- self.contig = parts[2]. -/
  contig : String
  /-- self.is_suspect, derived at parse time. -/
  is_suspect : Bool
deriving DecidableEq

/-- Read.__init__(sam_line): parse the SAM line and construct a read, in
the same field-access order as the source, so the error raised for a bad
line is the first one Python would hit (parts[1] before the flag check,
the flag check before parts[9] and parts[10]). -/
def parseRead (sam_line : String) : Except PyErr Read :=
  match (splitTab sam_line).get? 1 with
  | none => .error .indexError
  | some fstr =>
    match parsePyInt fstr with
    | none => .error .valueError
    | some flags =>
      if intTestBit flags 6 && intTestBit flags 7 then .error .bothMateBits
      else
        match (splitTab sam_line).get? 9 with
        | none => .error .indexError
        | some seqRaw =>
          match (splitTab sam_line).get? 10 with
          | none => .error .indexError
          | some qualRaw =>
            match (splitTab sam_line).get? 2 with
            | none => .error .indexError
            | some contig =>
              let rev := intTestBit flags 4
              let seqN := if rev then reverse_complement seqRaw else seqRaw
              let qualN := if rev then strReverse qualRaw else qualRaw
              .ok
                { line := sam_line
                  template := (splitTab sam_line).headD ""
                  flags := flags
                  end_ := if intTestBit flags 6 then 1
                          else if intTestBit flags 7 then 2 else 0
                  sequence := seqN
                  qualities := qualN
                  is_reverse := rev
                  contig := contig
                  -- (True or self.flags & BAM_FREVERSE) and
                  --   self.contig.endswith("_alt") and len(self.sequence) % 2 == 0
                  is_suspect := (true || intTestBit flags 4) &&
                    endsWithAlt contig && (seqN.length % 2 == 0) }

/-- Read.get_name: the template for unpaired reads, template/1 or
template/2 for paired reads. -/
def Read.get_name (r : Read) : String :=
  if r.end_ == 0 then r.template
  else r.template ++ "/" ++ toString r.end_

/-- Read.__eq__: compares template, sequence, qualities, end in that order.
The quality branch of the source reads `return Fasle`, a misspelled name,
so reaching it raises a NameError instead of returning False. -/
def Read.eq (a other : Read) : Except PyErr Bool :=
  -- isinstance(other, self.__class__) always holds here: both are Reads.
  if a.template != other.template then .ok false
  else if a.sequence != other.sequence then .ok false
  else if a.qualities != other.qualities then .error .nameError
  else if a.end_ != other.end_ then .ok false
  else .ok true

/-- Read.__ne__ = not self.__eq__(other), propagating the NameError. -/
def Read.ne (a other : Read) : Except PyErr Bool :=
  (Read.eq a other).map (fun b => !b)

/-- Read.__gt__: a Read should replace another when they are the same end
of the same template, this one is not suspect, and it is longer or the
other is suspect. -/
def Read.gt (a other : Read) : Bool :=
  a.template == other.template && a.end_ == other.end_ &&
    !a.is_suspect &&
    (decide (a.sequence.length > other.sequence.length) || other.is_suspect)

/-- reads_by_end[k] = v: replace in place when the key exists, append otherwise.
The dict reads_by_end, keyed by the end number, is modelled as an
insertion-ordered association list. -/
def dictSet : List (Nat × Read) → Nat → Read → List (Nat × Read)
  | [], k, v => [(k, v)]
  | (k', v') :: rest, k, v =>
    if k == k' then (k, v) :: rest else (k', v') :: dictSet rest k v

/-- reads_by_end.itervalues() in insertion order. -/
def dictValues (m : List (Nat × Read)) : List Read :=
  m.map Prod.snd

/-- The body of the per-read update of reads_by_end in
parse_and_deduplicate_sam (the has_key / replace / conflict block):
store the read when its end is new, replace the stored read when the new
one is greater, raise the conflict RuntimeError when the new read is not
suspect, is at least as long, and differs from the stored one; discard it
silently otherwise.  The inequality test can itself raise the NameError
from the misspelled literal in Read.__eq__. -/
def mergeRead (m : List (Nat × Read)) (read : Read) : Except PyErr (List (Nat × Read)) :=
  match m.lookup read.end_ with
  | none => .ok (dictSet m read.end_ read)
  | some existing =>
    if Read.gt read existing then .ok (dictSet m read.end_ read)
    else if !read.is_suspect && decide (read.sequence.length ≥ existing.sequence.length) then
      match Read.ne read existing with
      | .error e => .error e
      | .ok true => .error (.conflict read.end_ read.template)
      | .ok false => .ok m
    else .ok m

/-- One iteration of the finalization loop of parse_and_deduplicate_sam,
exactly as indented in the source: a warning pair (end, template), standing
for the stderr line "Only suspect alignments found for end .. of template
... Skipping.", is appended when the read is suspect, and then all_ok is
set to False unconditionally (in the source that assignment sits inside the
for loop but outside the if). -/
def finStep (acc : List (Nat × String) × Bool) (r : Read) : List (Nat × String) × Bool :=
  ((if r.is_suspect then acc.1 ++ [(r.end_, r.template)] else acc.1), false)

/-- The finalization block of parse_and_deduplicate_sam: all_ok starts
True and the loop body finStep runs once per stored read, so all_ok
survives only for an empty group.  Returns the warnings written and the
final all_ok. -/
def finalizeGroup (m : List (Nat × Read)) : List (Nat × String) × Bool :=
  (dictValues m).foldl finStep ([], true)

/-- An item the generator yields: a header line passed through verbatim as
a raw string, or a reads_by_end group, in one stream. -/
inductive Item where
  | header (s : String) : Item
  | group (g : List (Nat × Read)) : Item
deriving DecidableEq

/-- What a full run of the generator produces: the items yielded before it
stopped, the stderr warnings written, and the exception (if any) that ended
it.  This models the lazily evaluated Python generator faithfully: items
listed here were yielded to the consumer before the error was raised. -/
structure GenOut where
  items : List Item
  warnings : List (Nat × String)
  err : Option PyErr
deriving DecidableEq

/-- The loop of parse_and_deduplicate_sam over the remaining input lines,
carrying last_template and reads_by_end.  Header lines are yielded into
the item stream; on a template change the open group is finalized (yielded
only when all_ok survived) and a fresh dict is started; every parsed read
is then merged via mergeRead; at end of input the open group is finalized
the same way. -/
def dedupGo : List String → Option String → List (Nat × Read) → GenOut
  | [], _, m =>
    let fin := finalizeGroup m
    { items := if fin.2 then [Item.group m] else []
      warnings := fin.1
      err := none }
  | line :: rest, lastT, m =>
    if startsHeader line then
      let o := dedupGo rest lastT m
      { items := Item.header line :: o.items, warnings := o.warnings, err := o.err }
    else
      match parseRead line with
      | .error e => { items := [], warnings := [], err := some e }
      | .ok read =>
        if lastT == some read.template then
          match mergeRead m read with
          | .error e => { items := [], warnings := [], err := some e }
          | .ok m2 =>
            let o := dedupGo rest lastT m2
            { items := o.items, warnings := o.warnings, err := o.err }
        else
          let fin := finalizeGroup m
          let pre : List Item := if fin.2 then [Item.group m] else []
          match mergeRead [] read with
          | .error e => { items := pre, warnings := fin.1, err := some e }
          | .ok m2 =>
            let o := dedupGo rest (some read.template) m2
            { items := pre ++ o.items, warnings := fin.1 ++ o.warnings, err := o.err }

/-- parse_and_deduplicate_sam(sam_input) run over the whole input. -/
def parse_and_deduplicate_sam (lines : List String) : GenOut :=
  dedupGo lines none []

/-- One FASTQ record as write_fastq formats it: @name, sequence, +, qualities. -/
structure FastqRec where
  name : String
  sequence : String
  qualities : String
deriving DecidableEq

/-- write_fastq(stream, read): the record appended to the stream. -/
def write_fastq (r : Read) : FastqRec :=
  { name := r.get_name, sequence := r.sequence, qualities := r.qualities }

/-- The loop body of main over the items the generator yields, carrying the
two output streams.  A header item is a raw string, and Python's
reads_by_end.has_key(1) on a string raises AttributeError; a group item is
skipped unless it has both end 1 and end 2, in which case one record is
appended to each stream, end 1 first. -/
def mainItems : List Item → List FastqRec → List FastqRec →
    Except PyErr (List FastqRec × List FastqRec)
  | [], fq1, fq2 => .ok (fq1, fq2)
  | Item.header _ :: _, _, _ => .error .attributeError
  | Item.group g :: rest, fq1, fq2 =>
    match g.lookup 1, g.lookup 2 with
    | some r1, some r2 =>
      mainItems rest (fq1 ++ [write_fastq r1]) (fq2 ++ [write_fastq r2])
    | _, _ => mainItems rest fq1 fq2

/-- main(args) without the option plumbing: run the generator over the
input lines and the pairing loop over what it yields.  The consumer loop
runs on the items the lazy generator produced before stopping; if the loop
itself raises (a header item) that exception wins, otherwise the exception
the generator ended with (if any) is raised when the next item is pulled. -/
def mainRun (lines : List String) : Except PyErr (List FastqRec × List FastqRec) :=
  match mainItems (parse_and_deduplicate_sam lines).items [] [] with
  | .error e => .error e
  | .ok out =>
    match (parse_and_deduplicate_sam lines).err with
    | some e => .error e
    | none => .ok out

/-- True exactly on the error outcome of a run. -/
def runFails (r : Except PyErr (List FastqRec × List FastqRec)) : Bool :=
  match r with
  | .error _ => true
  | .ok _ => false

example : splitTab "a\tbb\tc" = ["a", "bb", "c"] := by decide
example : parsePyInt "2147" = some 2147 := by decide
example : intTestBit 64 6 = true := by decide
example : intTestBit 2147 6 = true := by decide
example : intTestBit 2147 4 = false := by decide
example : reverse_complement "AACG" = "CGTT" := by decide
example : endsWithAlt "chr6_GL000254v2_alt" = true := by decide
example : endsWithAlt "chr1" = false := by decide

/-! ## Concrete inputs used by the claim theorems -/

/-- A clean READ1 line for template T1 (contig chr1, so not suspect). -/
def c1line1 : String := "T1\t64\tchr1\t100\t60\t4M\t=\t100\t0\tACGT\tIIII"

/-- A clean READ2 line for template T1 (contig chr1, so not suspect). -/
def c1line2 : String := "T1\t128\tchr1\t100\t60\t4M\t=\t100\t0\tACGT\tIIII"

/-- A suspect unpaired line for template T2: contig chr1_alt and an
even-length sequence. -/
def c2line0 : String := "T2\t0\tchr1_alt\t100\t60\t4M\t=\t100\t0\tACGT\tIIII"

/-- A clean READ1 line for template T2. -/
def c2line1 : String := "T2\t64\tchr1\t100\t60\t5M\t=\t100\t0\tACGTA\tIIIII"

/-- A clean READ2 line for template T2. -/
def c2line2 : String := "T2\t128\tchr1\t100\t60\t5M\t=\t100\t0\tACGTA\tIIIII"

/-- The input stream of the C2 counterexample: one suspect unpaired read
and one clean read per paired end, all for template T2. -/
def c2lines : List String := [c2line0, c2line1, c2line2]

/-- A non-suspect READ1 record for template T3, as parsed from a SAM line. -/
def c3readA : Read :=
  { line := "T3\t64\tchr1\t100\t60\t4M\t=\t100\t0\tACGT\tIIII"
    template := "T3", flags := 64, end_ := 1, sequence := "ACGT"
    qualities := "IIII", is_reverse := false, contig := "chr1", is_suspect := false }

/-- A non-suspect READ1 record for template T3 with a longer, different
sequence. -/
def c3readB : Read :=
  { line := "T3\t64\tchr1\t100\t60\t5M\t=\t100\t0\tACGTA\tIIIII"
    template := "T3", flags := 64, end_ := 1, sequence := "ACGTA"
    qualities := "IIIII", is_reverse := false, contig := "chr1", is_suspect := false }

/-- A record for template T4, end 1. -/
def c4read1 : Read :=
  { line := "T4\t64\tchr1\t100\t60\t4M\t=\t100\t0\tACGT\tAAAA"
    template := "T4", flags := 64, end_ := 1, sequence := "ACGT"
    qualities := "AAAA", is_reverse := false, contig := "chr1", is_suspect := false }

/-- The same read as c4read1 except for the quality string. -/
def c4read2 : Read :=
  { line := "T4\t64\tchr1\t100\t60\t4M\t=\t100\t0\tACGT\tBBBB"
    template := "T4", flags := 64, end_ := 1, sequence := "ACGT"
    qualities := "BBBB", is_reverse := false, contig := "chr1", is_suspect := false }

/-- The same read as c4read1 except for the sequence (same length). -/
def c4read3 : Read :=
  { line := "T4\t64\tchr1\t100\t60\t4M\t=\t100\t0\tACGG\tAAAA"
    template := "T4", flags := 64, end_ := 1, sequence := "ACGG"
    qualities := "AAAA", is_reverse := false, contig := "chr1", is_suspect := false }

/-- An 11-field line for template T9 whose flags field is not an integer. -/
def c9line : String := "T9\tx\tchr1\t100\t60\t4M\t=\t100\t0\tACGT\tIIII"

/-! ## Claim theorems -/

/-- C1: the claim says that for a well-formed name-sorted stream, every
template whose two ends resolve to non-suspect representatives gets exactly
one mate-1 and one mate-2 FASTQ record.  The code emits nothing: on the
two-line input for template T1, whose READ1 and READ2 both parse cleanly
and are not suspect, the run finishes without error and both output
streams are empty, because the misindented all_ok = False in
parse_and_deduplicate_sam suppresses every non-empty group. -/
theorem c1_clean_pair_emits_nothing :
    mainRun [c1line1, c1line2] = .ok ([], []) ∧
    (parseRead c1line1).map (fun r => (r.end_, r.is_suspect)) = .ok (1, false) ∧
    (parseRead c1line2).map (fun r => (r.end_, r.is_suspect)) = .ok (2, false) := by
  exact ⟨by decide, by decide, by decide⟩

/-- The finalization loop body always leaves all_ok False, so a False
accumulator can never recover. -/
theorem foldl_finStep_snd_false :
    ∀ (l : List Read) (acc : List (Nat × String) × Bool),
      acc.2 = false → (l.foldl finStep acc).2 = false := by
  intro l
  induction l with
  | nil => intro acc h; exact h
  | cons x xs ih => intro acc _; exact ih (finStep acc x) rfl

/-- all_ok survives finalization only for the empty group: the assignment
all_ok = False sits inside the loop, so it runs once per stored read. -/
theorem finalizeGroup_allok (m : List (Nat × Read)) :
    (finalizeGroup m).2 = true → m = [] := by
  intro hfin
  unfold finalizeGroup at hfin
  rcases hm : dictValues m with _ | ⟨r, rest⟩
  · exact List.map_eq_nil_iff.mp hm
  · exfalso
    rw [hm, List.foldl_cons, foldl_finStep_snd_false rest (finStep ([], true) r) rfl] at hfin
    exact Bool.false_ne_true hfin

/-- Every group the generator ever yields is the empty dict: a group is
yielded only when all_ok survived the finalization loop, and the loop sets
all_ok to False once per stored read. -/
theorem dedupGo_group_items_empty :
    ∀ (lines : List String) (lastT : Option String) (m : List (Nat × Read))
      (g : List (Nat × Read)),
      Item.group g ∈ (dedupGo lines lastT m).items → g = [] := by
  intro lines
  induction lines with
  | nil =>
    intro lastT m g hg
    unfold dedupGo at hg
    by_cases hfin : (finalizeGroup m).2 = true
    · simp only [hfin, if_true] at hg
      rcases List.mem_singleton.mp hg with h
      injection h with h
      subst h
      exact finalizeGroup_allok g hfin
    · simp only [Bool.not_eq_true] at hfin
      simp only [hfin, if_false] at hg
      exact absurd hg (List.not_mem_nil _)
  | cons line rest ih =>
    intro lastT m g hg
    unfold dedupGo at hg
    by_cases hh : startsHeader line = true
    · simp only [hh, if_true] at hg
      rcases List.mem_cons.mp hg with h | h
      · exact absurd h (by intro hc; exact Item.noConfusion hc)
      · exact ih lastT m g h
    · simp only [Bool.not_eq_true] at hh
      simp only [hh] at hg
      rcases hp : parseRead line with e | read
      · rw [hp] at hg
        exact absurd hg (List.not_mem_nil _)
      · rw [hp] at hg
        by_cases hlt : (lastT == some read.template) = true
        · simp only [hlt, if_true] at hg
          rcases hm2 : mergeRead m read with e | m2
          · rw [hm2] at hg; exact absurd hg (List.not_mem_nil _)
          · rw [hm2] at hg; exact ih lastT m2 g hg
        · simp only [Bool.not_eq_true] at hlt
          simp only [hlt, Bool.false_eq_true, if_false] at hg
          have hpre : ∀ h' : Item.group g ∈
              (if (finalizeGroup m).2 then [Item.group m] else []), g = [] := by
            intro h'
            by_cases hfin : (finalizeGroup m).2 = true
            · simp only [hfin, if_true] at h'
              rcases List.mem_singleton.mp h' with h
              injection h with h
              subst h
              exact finalizeGroup_allok g hfin
            · simp only [Bool.not_eq_true] at hfin
              simp only [hfin, if_false] at h'
              exact absurd h' (List.not_mem_nil _)
          rcases hm2 : mergeRead [] read with e | m2
          · rw [hm2] at hg
            exact hpre hg
          · rw [hm2] at hg
            rcases List.mem_append.mp hg with h | h
            · exact hpre h
            · exact ih (some read.template) m2 g h

/-- The pairing loop writes nothing when every group item is empty, and it
errors on any header item; so a run that finishes cleanly with only empty
groups leaves both streams as they started. -/
theorem mainItems_empty_groups :
    ∀ (items : List Item) (fq1 fq2 : List FastqRec)
      (out : List FastqRec × List FastqRec),
      (∀ g, Item.group g ∈ items → g = []) →
      mainItems items fq1 fq2 = .ok out → out = (fq1, fq2) := by
  intro items
  induction items with
  | nil =>
    intro fq1 fq2 out _ h
    injection h with h
    exact h.symm
  | cons it rest ih =>
    intro fq1 fq2 out hgs h
    match it with
    | Item.header s => exact Except.noConfusion h
    | Item.group g =>
      have hg : g = [] := hgs g (List.mem_cons_self _ _)
      subst hg
      simp only [mainItems, List.lookup] at h
      exact ih fq1 fq2 out (fun g' hg' => hgs g' (List.mem_cons_of_mem _ hg')) h

/-- The program never emits a FASTQ record: whenever a run finishes without
an exception, both output streams are empty, whatever the input was. -/
theorem mainRun_no_output :
    ∀ (lines : List String) (out : List FastqRec × List FastqRec),
      mainRun lines = .ok out → out = ([], []) := by
  intro lines out h
  unfold mainRun at h
  rcases hmi : mainItems (parse_and_deduplicate_sam lines).items [] [] with e | out'
  · rw [hmi] at h; exact Except.noConfusion h
  · rw [hmi] at h
    rcases herr : (parse_and_deduplicate_sam lines).err with _ | e
    · rw [herr] at h
      injection h with h
      subst h
      exact mainItems_empty_groups _ [] [] out'
        (fun g hg => dedupGo_group_items_empty lines none [] g hg) hmi
    · rw [herr] at h; exact Except.noConfusion h

/-- C2 counterexample: for template T2 the input holds one suspect unpaired
read (end 0) and one clean read for each paired end.  The claim says only
end 0 is treated as unresolved and the resolved non-suspect ends 1 and 2
are unaffected, which with the pairing rule would emit the T2/1, T2/2 pair;
the code writes the warning for end 0 of T2 but hands the pairing loop only
the initial empty group, so ends 1 and 2 produce no output at all. -/
theorem c2_suspect_end_suppresses_whole_group :
    mainRun c2lines = .ok ([], []) ∧
    (parse_and_deduplicate_sam c2lines).warnings = [(0, "T2")] ∧
    (parse_and_deduplicate_sam c2lines).items = [Item.group []] ∧
    (parse_and_deduplicate_sam c2lines).err = none ∧
    (parseRead c2line1).map (fun r => (r.end_, r.is_suspect)) = .ok (1, false) ∧
    (parseRead c2line2).map (fun r => (r.end_, r.is_suspect)) = .ok (2, false) := by
  exact ⟨by decide, by decide, by decide, by decide, by decide, by decide⟩

/-- The warning list of the finalization loop only ever grows. -/
theorem foldl_finStep_fst_mono :
    ∀ (l : List Read) (acc : List (Nat × String) × Bool) (x : Nat × String),
      x ∈ acc.1 → x ∈ (l.foldl finStep acc).1 := by
  intro l
  induction l with
  | nil => intro acc x h; exact h
  | cons r rs ih =>
    intro acc x h
    refine ih (finStep acc r) x ?_
    unfold finStep
    by_cases hs : r.is_suspect = true
    · simp only [hs, if_true]
      exact List.mem_append_left _ h
    · simp only [Bool.not_eq_true] at hs
      simp only [hs, Bool.false_eq_true, if_false]
      exact h

/-- C2 amended: when the final representative of some end of a finalized
group is still suspect, the finalization block writes the warning naming
that end and that template, and it raises nothing; but all_ok ends False
(as it does for every non-empty group), so the whole group is withheld
from pairing rather than just the suspect end. -/
theorem c2_suspect_end_warns_and_drops_group :
    ∀ (m : List (Nat × Read)) (r : Read),
      r ∈ dictValues m → r.is_suspect = true →
      (r.end_, r.template) ∈ (finalizeGroup m).1 ∧ (finalizeGroup m).2 = false := by
  intro m r hr hs
  constructor
  · unfold finalizeGroup
    have : ∀ (l : List Read) (acc : List (Nat × String) × Bool),
        r ∈ l → (r.end_, r.template) ∈ (l.foldl finStep acc).1 := by
      intro l
      induction l with
      | nil => intro acc h; exact absurd h (List.not_mem_nil _)
      | cons x xs ih =>
        intro acc h
        rcases List.mem_cons.mp h with h | h
        · subst h
          refine foldl_finStep_fst_mono xs (finStep acc r) _ ?_
          unfold finStep
          simp only [hs, if_true]
          exact List.mem_append_right _ (List.mem_singleton.mpr rfl)
        · exact ih (finStep acc x) h
    exact this (dictValues m) ([], true) hr
  · unfold finalizeGroup
    rcases hm : dictValues m with _ | ⟨x, xs⟩
    · rw [hm] at hr; exact absurd hr (List.not_mem_nil _)
    · rw [List.foldl_cons]
      exact foldl_finStep_snd_false xs (finStep ([], true) x) rfl

/-- A suspect READ1 record for template W2 (contig chr9_alt, even length). -/
def w2read : Read :=
  { line := "W2\t64\tchr9_alt\t100\t60\t4M\t=\t100\t0\tACGT\tIIII"
    template := "W2", flags := 64, end_ := 1, sequence := "ACGT"
    qualities := "IIII", is_reverse := false, contig := "chr9_alt", is_suspect := true }

/-- Witness for the amended C2: a concrete one-entry group whose only read
is suspect gets the warning for end 1 of W2 and all_ok False. -/
theorem c2_suspect_end_warns_and_drops_group_witness :
    ((1 : Nat), "W2") ∈ (finalizeGroup [(1, w2read)]).1 ∧
    (finalizeGroup [(1, w2read)]).2 = false :=
  c2_suspect_end_warns_and_drops_group [(1, w2read)] w2read (by decide) (by decide)

/-- C3 counterexample: c3readA and c3readB are non-suspect records for the
same (template, end) with unequal content (different sequences of lengths 4
and 5), and they really are what Read.__init__ produces for their lines.
In both arrival orders the merge succeeds with no error: the longer read
replaces the shorter one, or the shorter arrival is silently discarded, so
no conflicting-alignments error is raised. -/
theorem c3_unequal_length_never_conflicts :
    parseRead c3readA.line = .ok c3readA ∧
    parseRead c3readB.line = .ok c3readB ∧
    mergeRead [(1, c3readA)] c3readB = .ok [(1, c3readB)] ∧
    mergeRead [(1, c3readB)] c3readA = .ok [(1, c3readB)] := by
  exact ⟨by decide, by decide, by decide, by decide⟩

/-- Merging a non-suspect incoming read into a stored non-suspect read of
the same template and end, with equal sequence lengths but different
sequences, raises the conflict RuntimeError. -/
theorem mergeRead_conflict_of_equal_length :
    ∀ (c r : Read),
      r.template = c.template → r.end_ = c.end_ →
      r.is_suspect = false → c.is_suspect = false →
      r.sequence.length = c.sequence.length → r.sequence ≠ c.sequence →
      mergeRead [(c.end_, c)] r = .error (.conflict r.end_ r.template) := by
  intro c r hT hE hR hC hLen hSeq
  have hgt : Read.gt r c = false := by
    unfold Read.gt
    rw [hR, hC, hLen]
    simp
  have hge : (!r.is_suspect && decide (r.sequence.length ≥ c.sequence.length)) = true := by
    rw [hR, hLen]
    simp
  have hb : (r.sequence != c.sequence) = true := bne_iff_ne.mpr hSeq
  have hne : Read.ne r c = .ok true := by
    unfold Read.ne Read.eq
    rw [hT]
    simp only [bne_self_eq_false, Bool.false_eq_true, if_false]
    rw [hb]
    simp [Except.map]
  unfold mergeRead
  rw [hE]
  simp only [List.lookup, beq_self_eq_true, if_true]
  rw [hgt]
  simp only [Bool.false_eq_true, if_false]
  rw [hge]
  simp only [if_true]
  rw [hne]

/-- C3 amended: two non-suspect records for the same (template, end) whose
sequences have equal length but differ raise the conflicting-alignments
RuntimeError naming that end and template, in both arrival orders.  (A
strictly longer non-suspect record instead replaces, or a shorter one is
discarded, without error; and two records with equal sequences but unequal
qualities hit the misspelled literal in Read.__eq__ and raise a NameError
rather than the conflict error.) -/
theorem c3_equal_length_conflict_both_orders :
    ∀ (a b : Read),
      a.template = b.template → a.end_ = b.end_ →
      a.is_suspect = false → b.is_suspect = false →
      a.sequence.length = b.sequence.length → a.sequence ≠ b.sequence →
      mergeRead [(a.end_, a)] b = .error (.conflict b.end_ b.template) ∧
      mergeRead [(b.end_, b)] a = .error (.conflict a.end_ a.template) := by
  intro a b hT hE hA hB hLen hSeq
  exact ⟨mergeRead_conflict_of_equal_length a b hT.symm hE.symm hB hA hLen.symm
      (fun h => hSeq h.symm),
    mergeRead_conflict_of_equal_length b a hT hE hA hB hLen hSeq⟩

/-- A non-suspect READ1 record for template W3. -/
def w3readA : Read :=
  { line := "W3\t64\tchr1\t100\t60\t4M\t=\t100\t0\tACGT\tIIII"
    template := "W3", flags := 64, end_ := 1, sequence := "ACGT"
    qualities := "IIII", is_reverse := false, contig := "chr1", is_suspect := false }

/-- A non-suspect READ1 record for template W3 with an equal-length,
different sequence. -/
def w3readB : Read :=
  { line := "W3\t64\tchr1\t100\t60\t4M\t=\t100\t0\tACGG\tIIII"
    template := "W3", flags := 64, end_ := 1, sequence := "ACGG"
    qualities := "IIII", is_reverse := false, contig := "chr1", is_suspect := false }

/-- Witness for the amended C3 at the concrete equal-length pair
ACGT versus ACGG: the conflict error is raised in both arrival orders. -/
theorem c3_equal_length_conflict_both_orders_witness :
    mergeRead [(w3readA.end_, w3readA)] w3readB =
      .error (.conflict w3readB.end_ w3readB.template) ∧
    mergeRead [(w3readB.end_, w3readB)] w3readA =
      .error (.conflict w3readA.end_ w3readA.template) :=
  c3_equal_length_conflict_both_orders w3readA w3readB rfl rfl rfl rfl rfl (by decide)

/-- C4: the claim says record equality is total and returns False on a
quality mismatch.  On c4read1 and c4read2, which agree on template,
sequence and end and differ only in qualities, Read.__eq__ reaches the
misspelled literal and raises the NameError (and __ne__ propagates it);
the other comparison outcomes behave as documented. -/
theorem c4_quality_mismatch_raises_nameerror :
    Read.eq c4read1 c4read2 = .error .nameError ∧
    Read.ne c4read1 c4read2 = .error .nameError ∧
    Read.eq c4read1 c4read3 = .ok false ∧
    Read.eq c4read1 c4read1 = .ok true := by
  exact ⟨by decide, by decide, by decide, by decide⟩

/-- C5: merging an incoming read r against the current representative c of
the same (template, end) replaces c exactly when r is not suspect and (c is
suspect or r's sequence is strictly longer); and into an empty slot r
always becomes the representative. -/
theorem c5_replace_iff_dominates :
    ∀ (c r : Read),
      r.template = c.template → r.end_ = c.end_ → r ≠ c →
      (mergeRead [(r.end_, c)] r = .ok [(r.end_, r)] ↔
        (r.is_suspect = false ∧
          (c.is_suspect = true ∨ c.sequence.length < r.sequence.length))) ∧
      mergeRead [] r = .ok [(r.end_, r)] := by
  intro c r hT hE hNe
  constructor
  · constructor
    · intro hok
      by_cases hgt : Read.gt r c = true
      · unfold Read.gt at hgt
        rw [hT, hE] at hgt
        simp only [beq_self_eq_true, Bool.true_and, Bool.and_eq_true,
          Bool.or_eq_true, Bool.not_eq_true', decide_eq_true_eq] at hgt
        exact ⟨hgt.1, hgt.2.elim (fun h => Or.inr h) (fun h => Or.inl h)⟩
      · exfalso
        have hgt' : Read.gt r c = false := by
          revert hgt; cases Read.gt r c <;> simp
        unfold mergeRead at hok
        simp only [List.lookup, beq_self_eq_true, if_true] at hok
        rw [hgt'] at hok
        simp only [Bool.false_eq_true, if_false] at hok
        by_cases hcond :
            (!r.is_suspect && decide (r.sequence.length ≥ c.sequence.length)) = true
        · rw [hcond] at hok
          simp only [if_true] at hok
          rcases hne : Read.ne r c with e | b
          · rw [hne] at hok; exact Except.noConfusion hok
          · rw [hne] at hok
            cases b
            · simp only [List.cons.injEq, Prod.mk.injEq, and_true,
                Except.ok.injEq, true_and] at hok
              exact hNe hok.symm
            · exact Except.noConfusion hok
        · have hcond' :
              (!r.is_suspect && decide (r.sequence.length ≥ c.sequence.length)) = false := by
            revert hcond
            cases (!r.is_suspect && decide (r.sequence.length ≥ c.sequence.length)) <;> simp
          rw [hcond'] at hok
          simp only [Bool.false_eq_true, if_false, Except.ok.injEq,
            List.cons.injEq, Prod.mk.injEq, true_and, and_true] at hok
          exact hNe hok.symm
    · intro hdom
      have hgt : Read.gt r c = true := by
        unfold Read.gt
        rw [hT, hE]
        rcases hdom with ⟨h1, h2⟩
        rw [h1]
        rcases h2 with h2 | h2
        · rw [h2]; simp
        · simp [decide_eq_true h2]
      unfold mergeRead
      simp only [List.lookup, beq_self_eq_true, if_true]
      rw [hgt]
      simp [dictSet]
  · unfold mergeRead
    simp [List.lookup, dictSet]

/-- A suspect READ1 record for template W5 (alt contig, even length). -/
def w5readC : Read :=
  { line := "W5\t64\tchr9_alt\t100\t60\t4M\t=\t100\t0\tACGT\tIIII"
    template := "W5", flags := 64, end_ := 1, sequence := "ACGT"
    qualities := "IIII", is_reverse := false, contig := "chr9_alt", is_suspect := true }

/-- A non-suspect READ1 record for template W5 with the same sequence. -/
def w5readR : Read :=
  { line := "W5\t64\tchr9\t100\t60\t4M\t=\t100\t0\tACGT\tIIII"
    template := "W5", flags := 64, end_ := 1, sequence := "ACGT"
    qualities := "IIII", is_reverse := false, contig := "chr9", is_suspect := false }

/-- Witness for C5: the non-suspect w5readR replaces the suspect w5readC. -/
theorem c5_replace_iff_dominates_witness :
    mergeRead [(w5readR.end_, w5readC)] w5readR = .ok [(w5readR.end_, w5readR)] :=
  ((c5_replace_iff_dominates w5readC w5readR rfl rfl (by decide)).1).mpr (by decide)

/-- C8: a suspect record a and a non-suspect record b for the same
(template, end), merged into an empty slot in either order, leave b as the
final representative with no error raised. -/
theorem c8_suspect_loses_both_orders :
    ∀ (a b : Read),
      a.template = b.template → a.end_ = b.end_ →
      a.is_suspect = true → b.is_suspect = false →
      (mergeRead [] a).bind (fun m => mergeRead m b) = .ok [(b.end_, b)] ∧
      (mergeRead [] b).bind (fun m => mergeRead m a) = .ok [(b.end_, b)] := by
  intro a b hT hE hA hB
  have h0a : mergeRead [] a = .ok [(a.end_, a)] := by
    unfold mergeRead
    simp [List.lookup, dictSet]
  have h0b : mergeRead [] b = .ok [(b.end_, b)] := by
    unfold mergeRead
    simp [List.lookup, dictSet]
  constructor
  · rw [h0a]
    show mergeRead [(a.end_, a)] b = .ok [(b.end_, b)]
    have hgt : Read.gt b a = true := by
      unfold Read.gt
      rw [hT, hE, hA, hB]
      simp
    unfold mergeRead
    rw [hE]
    simp only [List.lookup, beq_self_eq_true, if_true]
    rw [hgt]
    simp [dictSet]
  · rw [h0b]
    show mergeRead [(b.end_, b)] a = .ok [(b.end_, b)]
    have hgt : Read.gt a b = false := by
      unfold Read.gt
      rw [hA]
      simp
    have hcond : (!a.is_suspect && decide (a.sequence.length ≥ b.sequence.length)) = false := by
      rw [hA]
      simp
    unfold mergeRead
    rw [hE]
    simp only [List.lookup, beq_self_eq_true, if_true]
    rw [hgt]
    simp only [Bool.false_eq_true, if_false]
    rw [hcond]
    simp

/-- A suspect unpaired record for template W8 (alt contig, even length). -/
def w8readA : Read :=
  { line := "W8\t0\tchr9_alt\t100\t60\t4M\t=\t100\t0\tAAGT\tIIII"
    template := "W8", flags := 0, end_ := 0, sequence := "AAGT"
    qualities := "IIII", is_reverse := false, contig := "chr9_alt", is_suspect := true }

/-- A non-suspect unpaired record for template W8. -/
def w8readB : Read :=
  { line := "W8\t0\tchr9\t100\t60\t4M\t=\t100\t0\tAAGT\tIIII"
    template := "W8", flags := 0, end_ := 0, sequence := "AAGT"
    qualities := "IIII", is_reverse := false, contig := "chr9", is_suspect := false }

/-- Witness for C8 at the concrete suspect/non-suspect pair for W8. -/
theorem c8_suspect_loses_both_orders_witness :
    (mergeRead [] w8readA).bind (fun m => mergeRead m w8readB) =
      .ok [(w8readB.end_, w8readB)] ∧
    (mergeRead [] w8readB).bind (fun m => mergeRead m w8readA) =
      .ok [(w8readB.end_, w8readB)] :=
  c8_suspect_loses_both_orders w8readA w8readB rfl rfl rfl rfl

/-- C9 counterexample: an 11-field line whose flags field is the letter x.
It has no missing fields and (being unparseable as an integer) cannot have
both mate bits set, yet parsing fails, with the ValueError int() raises,
instead of returning a record. -/
theorem c9_nonint_flags_fails :
    parseRead c9line = .error .valueError ∧ (splitTab c9line).length = 11 := by
  exact ⟨by decide, by decide⟩

/-- C6: for every parsed record, the derived suspect flag equals (contig
name ends with _alt) AND (sequence length is even).  The reverse-strand
part of the source condition is short-circuited by the literal True, so
the flag depends on nothing else. -/
theorem c6_suspect_rule :
    ∀ (line : String) (r : Read), parseRead line = .ok r →
      r.is_suspect = (endsWithAlt r.contig && (r.sequence.length % 2 == 0)) := by
  intro line r h
  unfold parseRead at h
  split at h
  · exact Except.noConfusion h
  · split at h
    · exact Except.noConfusion h
    · split at h
      · exact Except.noConfusion h
      · split at h
        · exact Except.noConfusion h
        · split at h
          · exact Except.noConfusion h
          · split at h
            · exact Except.noConfusion h
            · injection h with h
              subst h
              simp

/-- The raw SAM line behind the C6 witness: an unpaired read on an alt
contig with an even-length sequence. -/
def w6line : String := "W6\t0\tchrX_alt\t100\t60\t4M\t=\t100\t0\tACGT\tIIII"

/-- The record Read.__init__ builds for w6line. -/
def w6read : Read :=
  { line := w6line, template := "W6", flags := 0, end_ := 0, sequence := "ACGT"
    qualities := "IIII", is_reverse := false, contig := "chrX_alt", is_suspect := true }

/-- Witness for C6 at the concrete line w6line. -/
theorem c6_suspect_rule_witness :
    w6read.is_suspect = (endsWithAlt w6read.contig && (w6read.sequence.length % 2 == 0)) :=
  c6_suspect_rule w6line w6read (by decide)

/-- C7: for a line whose flags have bit 16 set, the stored sequence is the
reverse complement of the raw field (column 10, index 9) and the stored
quality is the raw field (column 11, index 10) reversed; without that bit
both are stored verbatim.  The normalization lives only in Read.__init__,
so it is applied exactly once, at parse time. -/
theorem c7_normalization :
    ∀ (line : String) (r : Read), parseRead line = .ok r →
      (intTestBit r.flags 4 = true →
          r.sequence = reverse_complement ((splitTab line).getD 9 "") ∧
          r.qualities = strReverse ((splitTab line).getD 10 "")) ∧
      (intTestBit r.flags 4 = false →
          r.sequence = (splitTab line).getD 9 "" ∧
          r.qualities = (splitTab line).getD 10 "") := by
  intro line r h
  unfold parseRead at h
  split at h
  · exact Except.noConfusion h
  · split at h
    · exact Except.noConfusion h
    · split at h
      · exact Except.noConfusion h
      · split at h
        · exact Except.noConfusion h
        · split at h
          · exact Except.noConfusion h
          · split at h
            · exact Except.noConfusion h
            · injection h with h
              subst h
              constructor <;> intro hb <;>
                simp_all [List.getD_eq_getD_get?]

/-- The raw SAM line behind the C7 witness: a reverse-strand read with
sequence AACG and qualities ABCD. -/
def w7line : String := "W7\t16\tchr1\t100\t60\t4M\t=\t100\t0\tAACG\tABCD"

/-- The record Read.__init__ builds for w7line: sequence CGTT (the reverse
complement of AACG) and qualities DCBA. -/
def w7read : Read :=
  { line := w7line, template := "W7", flags := 16, end_ := 0, sequence := "CGTT"
    qualities := "DCBA", is_reverse := true, contig := "chr1", is_suspect := false }

/-- Witness for C7 at the concrete reverse-strand line w7line. -/
theorem c7_normalization_witness :
    w7read.sequence = reverse_complement ((splitTab w7line).getD 9 "") ∧
    w7read.qualities = strReverse ((splitTab w7line).getD 10 "") :=
  (c7_normalization w7line w7read (by decide)).1 (by decide)

/-- C9 amended: parsing a line returns a record exactly when the line has
at least 11 tab-separated fields AND its flags field (column 2, index 1)
parses as an integer AND that integer does not have both mate bits set.
A non-integer flags field makes Read.__init__ fail with the ValueError
from int(), a case the original claim does not allow for. -/
theorem c9_parse_ok_iff :
    ∀ line : String,
      (∃ r, parseRead line = .ok r) ↔
        (11 ≤ (splitTab line).length ∧
         ∃ f, parsePyInt ((splitTab line).getD 1 "") = some f ∧
              (intTestBit f 6 && intTestBit f 7) = false) := by
  intro line
  constructor
  · rintro ⟨r, h⟩
    unfold parseRead at h
    split at h
    · exact Except.noConfusion h
    · split at h
      · exact Except.noConfusion h
      · split at h
        · exact Except.noConfusion h
        · split at h
          · exact Except.noConfusion h
          · split at h
            · exact Except.noConfusion h
            · split at h
              · exact Except.noConfusion h
              · rename_i o1 fstr heq1 o2 flags heq2 hcond o3 seqRaw heq9 o4
                  qualRaw heq10 o5 contig heqc
                have hlen : 11 ≤ (splitTab line).length := by
                  by_contra hl
                  rw [not_le] at hl
                  have hnone : (splitTab line).get? 10 = none :=
                    List.get?_eq_none.mpr (by omega)
                  rw [hnone] at heq10
                  exact Option.noConfusion heq10
                refine ⟨hlen, flags, ?_, ?_⟩
                · rw [List.getD_eq_getD_get?, heq1]
                  exact heq2
                · revert hcond
                  cases (intTestBit flags 6 && intTestBit flags 7) <;> simp
  · rintro ⟨hlen, f, hf, hbits⟩
    obtain ⟨s1, h1⟩ : ∃ x, (splitTab line).get? 1 = some x :=
      ⟨_, List.get?_eq_get (by omega)⟩
    obtain ⟨s9, h9⟩ : ∃ x, (splitTab line).get? 9 = some x :=
      ⟨_, List.get?_eq_get (by omega)⟩
    obtain ⟨s10, h10⟩ : ∃ x, (splitTab line).get? 10 = some x :=
      ⟨_, List.get?_eq_get (by omega)⟩
    obtain ⟨s2, h2⟩ : ∃ x, (splitTab line).get? 2 = some x :=
      ⟨_, List.get?_eq_get (by omega)⟩
    have hf' : parsePyInt s1 = some f := by
      rw [List.getD_eq_getD_get?, h1] at hf
      exact hf
    exact ⟨_, by
      unfold parseRead
      simp only [h1, hf', hbits, h9, h10, h2, Bool.false_eq_true, if_false]
      rfl⟩

/-- The pairing loop raises as soon as it meets a header item: Python calls
has_key on the yielded string and strings have no such attribute. -/
theorem mainItems_header_errors :
    ∀ (items : List Item) (fq1 fq2 : List FastqRec),
      (∃ s, Item.header s ∈ items) →
      ∃ e, mainItems items fq1 fq2 = .error e := by
  intro items
  induction items with
  | nil =>
    intro fq1 fq2 hex
    obtain ⟨s, hs⟩ := hex
    exact absurd hs (List.not_mem_nil _)
  | cons it rest ih =>
    intro fq1 fq2 hex
    obtain ⟨s, hs⟩ := hex
    match it with
    | Item.header t => exact ⟨.attributeError, rfl⟩
    | Item.group g =>
      have hs' : Item.header s ∈ rest := by
        rcases List.mem_cons.mp hs with h | h
        · exact absurd h (by intro hc; exact Item.noConfusion hc)
        · exact h
      rcases hl1 : g.lookup 1 with _ | r1 <;> rcases hl2 : g.lookup 2 with _ | r2 <;>
        · simp only [mainItems, hl1, hl2]
          exact ih _ _ ⟨s, hs'⟩

/-- A header line anywhere in the input either shows up as a raw-string
header item in the one stream the generator yields, or the generator has
already stopped with an exception of its own before reaching it. -/
theorem dedupGo_header_in_items :
    ∀ (lines : List String) (lastT : Option String) (m : List (Nat × Read)) (l : String),
      l ∈ lines → startsHeader l = true →
      (dedupGo lines lastT m).err ≠ none ∨
        ∃ s, Item.header s ∈ (dedupGo lines lastT m).items := by
  intro lines
  induction lines with
  | nil =>
    intro lastT m l hl _
    exact absurd hl (List.not_mem_nil _)
  | cons line rest ih =>
    intro lastT m l hl hh
    by_cases hline : startsHeader line = true
    · right
      refine ⟨line, ?_⟩
      unfold dedupGo
      simp only [hline, if_true]
      exact List.mem_cons_self _ _
    · have hline' : startsHeader line = false := by
        revert hline; cases startsHeader line <;> simp
      have hl' : l ∈ rest := by
        rcases List.mem_cons.mp hl with h | h
        · subst h; exact absurd hh hline
        · exact h
      unfold dedupGo
      simp only [hline', Bool.false_eq_true, if_false]
      rcases hp : parseRead line with e | read
      · left
        simp
      · by_cases hlast : (lastT == some read.template) = true
        · simp only [hlast, if_true]
          rcases hm : mergeRead m read with e | m2
          · left; simp
          · rcases ih lastT m2 l hl' hh with h | hex
            · left; exact h
            · obtain ⟨s, hs⟩ := hex
              exact Or.inr ⟨s, hs⟩
        · have hlast' : (lastT == some read.template) = false := by
            revert hlast; cases (lastT == some read.template) <;> simp
          simp only [hlast', Bool.false_eq_true, if_false]
          rcases hm : mergeRead [] read with e | m2
          · left; simp
          · rcases ih (some read.template) m2 l hl' hh with h | hex
            · left; exact h
            · obtain ⟨s, hs⟩ := hex
              exact Or.inr ⟨s, List.mem_append_right _ hs⟩

/-- C10: the generator yields header lines as raw strings into the same
stream as the groups, and main then calls the dict lookup has_key on that
string, so any input stream containing a header line makes the whole run
fail with an exception (the AttributeError from the header string, or an
exception the generator itself raised first) instead of routing the header
to a side channel. -/
theorem c10_header_crashes_run :
    ∀ (lines : List String) (l : String),
      l ∈ lines → startsHeader l = true → runFails (mainRun lines) = true := by
  intro lines l hl hh
  unfold mainRun parse_and_deduplicate_sam
  rcases hmi : mainItems (dedupGo lines none []).items [] [] with e | out
  · rfl
  · rcases dedupGo_header_in_items lines none [] l hl hh with herr | hex
    · rcases ho : (dedupGo lines none []).err with _ | e
      · exact absurd ho herr
      · rfl
    · obtain ⟨s, hs⟩ := hex
      obtain ⟨e, he⟩ := mainItems_header_errors _ [] [] ⟨s, hs⟩
      rw [he] at hmi
      exact Except.noConfusion hmi

/-- Witness for C10: running on a single SAM header line fails. -/
theorem c10_header_crashes_run_witness :
    runFails (mainRun ["@HD\tVN:1.6"]) = true :=
  c10_header_crashes_run ["@HD\tVN:1.6"] "@HD\tVN:1.6"
    (List.mem_singleton.mpr rfl) (by decide)
